import Mathlib

/-!
# Planar quadrotor model (`PlanarQuadrotor/planar_quadrotor.cpp`)

A shallow embedding of the `PlanarQuadrotor` class: the model state becomes a
structure, every member function becomes a function on that structure
(returning the new structure, paired with the return value when it has one).

The C++ scalar type `float` is kept abstract: the definitions are written over
a type `F` that carries only the arithmetic operations the source uses
(`+ - * /`, unary minus, the literals `0`, `1`, `2`) and the two library
functions `sin` and `cos`, passed as arguments.  Statements about the shape of
a computation are proved for every such `F`; statements that need algebra or
calculus are proved for exact arithmetic (`ℝ` with `Real.sin` and `Real.cos`),
under the hypothesis that the divisors are nonzero.  Statements that depend
on rounding are settled in `F32`, the IEEE 754 binary32 arithmetic of `float`
with rounding to nearest, in which every operation of the source rounds its
result to binary32.

Eigen vectors of fixed length `n` are functions `Fin n → F`, dense matrices
are functions `Fin r → Fin c → F`, and the growing `3 × N` history matrix is
the list of its columns, oldest first.
-/

namespace PlanarQuadrotor

/-- Modelled from the spec: the data members of `class PlanarQuadrotor`, which
are declared in `planar_quadrotor.h`.  `z`, `z_dot` and `z_goal` have six
components, `params` is `(m, I, r, g)`, `input` has two components and
`z_history` has three rows and one column per completed step. -/
structure Model (F : Type) where
  z : Fin 6 → F
  z_dot : Fin 6 → F
  z_goal : Fin 6 → F
  params : Fin 4 → F
  input : Fin 2 → F
  z_history : List (Fin 3 → F)

section Eigen

variable {F : Type}

/-- The vector `Eigen::VectorXf::Zero(n)`. -/
def vecZero [Zero F] (n : Nat) : Fin n → F :=
  fun _ => 0

/-- The vector `Eigen::Vector2f::Constant(c)` (any length). -/
def vecConstant (n : Nat) (c : F) : Fin n → F :=
  fun _ => c

/-- The matrix `Eigen::MatrixXf::Zero(r, c)`. -/
def matZero [Zero F] (r c : Nat) : Fin r → Fin c → F :=
  fun _ _ => 0

/-- The matrix `Eigen::MatrixXf::Identity(r, c)`. -/
def matIdentity [Zero F] [One F] (r c : Nat) : Fin r → Fin c → F :=
  fun i j => if i.val = j.val then 1 else 0

/-- Reading `v.block(i0, 0, p, 1)` of a column vector: the `p` entries from
index `i0` on. -/
def vecBlock {n : Nat} (v : Fin n → F) (i0 p : Nat) (h : i0 + p ≤ n) : Fin p → F :=
  fun k => v ⟨i0 + k.val, by omega⟩

/-- Assigning `blk` to `v.block(i0, 0, p, 1)` of a column vector. -/
def vecSetBlock {n p : Nat} (v : Fin n → F) (i0 : Nat) (blk : Fin p → F) : Fin n → F :=
  fun i => if h : i0 ≤ i.val ∧ i.val < i0 + p then blk ⟨i.val - i0, by omega⟩ else v i

/-- Assigning `blk` to `M.block(i0, j0, p, q)`. -/
def matSetBlock {r c p q : Nat} (M : Fin r → Fin c → F) (i0 j0 : Nat)
    (blk : Fin p → Fin q → F) : Fin r → Fin c → F :=
  fun i j =>
    if h : (i0 ≤ i.val ∧ i.val < i0 + p) ∧ (j0 ≤ j.val ∧ j.val < j0 + q) then
      blk ⟨i.val - i0, by omega⟩ ⟨j.val - j0, by omega⟩
    else M i j

/-- Assigning the vector `v` to `M.row(i0)`. -/
def matSetRow {r c : Nat} (M : Fin r → Fin c → F) (i0 : Nat) (v : Fin c → F) :
    Fin r → Fin c → F :=
  fun i j => if i.val = i0 then v j else M i j

end Eigen

section Methods

variable {F : Type}

/-- Modelled from the spec: the member initialisers of `planar_quadrotor.h`
(`z_dot`, `z_goal` and `input` zero, `z_history` with no column) around the
source constructor `PlanarQuadrotor(Eigen::VectorXf z): z(z) {}`; the value of
`params` is an argument. -/
def construct [Zero F] (params : Fin 4 → F) (z : Fin 6 → F) : Model F :=
  { z := z
    z_dot := vecZero 6
    z_goal := vecZero 6
    params := params
    input := vecZero 2
    z_history := [] }

/-- `void SetGoal(Eigen::VectorXf z_goal)`. -/
def SetGoal (q : Model F) (z_goal : Fin 6 → F) : Model F :=
  { q with z_goal := z_goal }

/-- `Eigen::VectorXf GetState()`. -/
def GetState (q : Model F) : (Fin 6 → F) × Model F :=
  (q.z, q)

/-- `Eigen::VectorXf GetControlState()`: `z - z_goal`. -/
def GetControlState [Sub F] (q : Model F) : (Fin 6 → F) × Model F :=
  (fun i => q.z i - q.z_goal i, q)

/-- `Eigen::Vector2f GravityCompInput()`. -/
def GravityCompInput [OfNat F 2] [Mul F] [Div F] (q : Model F) : (Fin 2 → F) × Model F :=
  let m := q.params 0
  let g := q.params 3
  (vecConstant 2 (m * g / 2), q)

/-- `std::tuple<Eigen::MatrixXf, Eigen::MatrixXf> Linearize()`. -/
def Linearize [Zero F] [One F] [OfNat F 2] [Add F] [Mul F] [Div F] [Neg F]
    (sin cos : F → F) (q : Model F) :
    ((Fin 6 → Fin 6 → F) × (Fin 6 → Fin 2 → F)) × Model F :=
  let m := q.params 0
  let I := q.params 1
  let r := q.params 2
  let z_star : Fin 6 → F := vecZero 6
  let theta := z_star 2
  let (input_star, q1) := GravityCompInput q
  let u_1 := input_star 0
  let u_2 := input_star 1
  let A0 : Fin 6 → Fin 6 → F := matZero 6 6
  let B0 : Fin 6 → Fin 2 → F := matZero 6 2
  let A1 := matSetBlock A0 0 3 (matIdentity 3 3)
  let A2 := matSetBlock A1 3 0 (fun (_ : Fin 1) => ![0, 0, (-(u_1 + u_2)) * cos theta / m])
  let A3 := matSetBlock A2 4 0 (fun (_ : Fin 1) => ![0, 0, (-(u_1 + u_2)) * sin theta / m])
  let B1 := matSetRow B0 3 (vecConstant 2 ((-(sin theta)) / m))
  let B2 := matSetRow B1 4 (vecConstant 2 (cos theta / m))
  let B3 := matSetRow B2 5 ![r / I, (-r) / I]
  ((A3, B3), q1)

/-- `void DoCalcTimeDerivatives()`. -/
def DoCalcTimeDerivatives [Add F] [Sub F] [Mul F] [Div F] [Neg F]
    (sin cos : F → F) (q : Model F) : Model F :=
  let m := q.params 0
  let I := q.params 1
  let r := q.params 2
  let g := q.params 3
  let theta := q.z 2
  let u_1 := q.input 0
  let u_2 := q.input 1
  let z_dot1 := vecSetBlock q.z_dot 0 (vecBlock q.z 3 3 (by omega))
  let x_dotdot := (-(u_1 + u_2)) * sin theta / m
  let y_dotdot := (u_1 + u_2) * cos theta / m - g
  let theta_dotdot := r * (u_1 - u_2) / I
  { q with z_dot := vecSetBlock z_dot1 3 ![x_dotdot, y_dotdot, theta_dotdot] }

/-- `void UpdateHistory(float dt)`: one more column, holding `(z[0], z[1], z[2])`. -/
def UpdateHistory (q : Model F) (_dt : F) : Model F :=
  let temp : Fin 3 → F := ![q.z 0, q.z 1, q.z 2]
  { q with z_history := q.z_history ++ [temp] }

/-- `void DoUpdateState(float dt)`: `z += dt * z_dot`. -/
def DoUpdateState [Add F] [Mul F] (q : Model F) (dt : F) : Model F :=
  { q with z := fun i => q.z i + dt * q.z_dot i }

/-- `void SetInput(Eigen::Vector2f input)`. -/
def SetInput (q : Model F) (input : Fin 2 → F) : Model F :=
  { q with input := input }

/-- `Eigen::VectorXf Update(Eigen::Vector2f &input, float dt)`. -/
def Update [Add F] [Sub F] [Mul F] [Div F] [Neg F]
    (sin cos : F → F) (q : Model F) (input : Fin 2 → F) (dt : F) :
    (Fin 6 → F) × Model F :=
  let q1 := SetInput q input
  let q2 := DoCalcTimeDerivatives sin cos q1
  let q3 := DoUpdateState q2 dt
  let q4 := UpdateHistory q3 dt
  (q4.z, q4)

/-- `Eigen::VectorXf Update(float dt)`: `return Update(input, dt);`. -/
def UpdateDt [Add F] [Sub F] [Mul F] [Div F] [Neg F]
    (sin cos : F → F) (q : Model F) (dt : F) : (Fin 6 → F) × Model F :=
  Update sin cos q q.input dt

end Methods

section Specification

variable {F : Type}

/-- The right-hand side `f(z, u)` of the equations of motion as the
specification writes it (section 4.5): velocities passed through, then
`-(u_1+u_2)*sin(theta)/m`, `(u_1+u_2)*cos(theta)/m - g`, `r*(u_1-u_2)/I`. -/
def specDynamics [Add F] [Sub F] [Mul F] [Div F] [Neg F]
    (sin cos : F → F) (params : Fin 4 → F) (z : Fin 6 → F) (u : Fin 2 → F) : Fin 6 → F :=
  ![z 3, z 4, z 5,
    (-(u 0 + u 1)) * sin (z 2) / params 0,
    (u 0 + u 1) * cos (z 2) / params 0 - params 3,
    params 2 * (u 0 - u 1) / params 1]

/-- A simulation loop: one call `Update(u, dt)` per entry `(u, dt)` of `steps`,
in order, each on the model left by the previous call. -/
def runUpdates [Add F] [Sub F] [Mul F] [Div F] [Neg F]
    (sin cos : F → F) (q : Model F) (steps : List ((Fin 2 → F) × F)) : Model F :=
  steps.foldl (fun acc s => (Update sin cos acc s.1 s.2).2) q

/-- One call of a member function other than `SetGoal`, with its arguments. -/
inductive Call (F : Type) where
  | setInput (u : Fin 2 → F)
  | update (u : Fin 2 → F) (dt : F)
  | updateDt (dt : F)
  | updateHistory (dt : F)
  | doCalcTimeDerivatives
  | doUpdateState (dt : F)
  | linearize
  | gravityCompInput
  | getState
  | getControlState

/-- The model left by one call. -/
def Call.apply [Zero F] [One F] [OfNat F 2] [Add F] [Sub F] [Mul F] [Div F] [Neg F]
    (sin cos : F → F) (q : Model F) : Call F → Model F
  | Call.setInput u => SetInput q u
  | Call.update u dt => (Update sin cos q u dt).2
  | Call.updateDt dt => (UpdateDt sin cos q dt).2
  | Call.updateHistory dt => UpdateHistory q dt
  | Call.doCalcTimeDerivatives => DoCalcTimeDerivatives sin cos q
  | Call.doUpdateState dt => DoUpdateState q dt
  | Call.linearize => (Linearize sin cos q).2
  | Call.gravityCompInput => (GravityCompInput q).2
  | Call.getState => (GetState q).2
  | Call.getControlState => (GetControlState q).2

/-- The model left by a sequence of calls, made in order. -/
def runCalls [Zero F] [One F] [OfNat F 2] [Add F] [Sub F] [Mul F] [Div F] [Neg F]
    (sin cos : F → F) (q : Model F) (calls : List (Call F)) : Model F :=
  calls.foldl (Call.apply sin cos) q

/-- The state `z` with `x` replaced by `x + a` and `y` by `y + b`. -/
def translate [Add F] (a b : F) (z : Fin 6 → F) : Fin 6 → F :=
  ![z 0 + a, z 1 + b, z 2, z 3, z 4, z 5]

/-- A run of hover steps: `Update(GravityCompInput(), dt)` for each `dt` of
`dts`, in order. -/
def runHover [OfNat F 2] [Add F] [Sub F] [Mul F] [Div F] [Neg F]
    (sin cos : F → F) (q : Model F) (dts : List F) : Model F :=
  dts.foldl (fun acc dt => (Update sin cos acc (GravityCompInput acc).1 dt).2) q

end Specification

section Binary32

/-- The values of the IEEE 754 binary32 format, the C++ type `float`: a
not-a-number, the two infinities, and the finite values `(-1)^neg * m * 2^e`.
A finite value is kept in its unique form: `m < 2^24` and `-149 ≤ e ≤ 104`,
with `2^23 ≤ m` unless `e = -149` (the subnormal values and the two zeros,
`m = 0`).  Two values are equal exactly when they have the same bits, all
not-a-numbers counted as one. -/
inductive F32 where
  | nan
  | inf (neg : Bool)
  | fin (neg : Bool) (m : Nat) (e : Int)
deriving DecidableEq

/-- The number of binary digits of `n`, with `fuel` at least that number. -/
def F32.bitLenAux : Nat → Nat → Nat
  | 0, _ => 0
  | fuel + 1, n => if n = 0 then 0 else F32.bitLenAux fuel (n / 2) + 1

/-- The number of binary digits of `n` (`0` for `n = 0`). -/
def F32.bitLen (n : Nat) : Nat := F32.bitLenAux n n

/-- The value `(-1)^neg * m * 2^e` after rounding, `m ≤ 2^24`: a mantissa that
rounding carried up to `2^24` moves to the next exponent, and an exponent above
`104` is an overflow to infinity. -/
def F32.pack (neg : Bool) (m : Nat) (e : Int) : F32 :=
  if m = 2 ^ 24 then (if 104 < e + 1 then F32.inf neg else F32.fin neg (2 ^ 23) (e + 1))
  else if 104 < e then F32.inf neg
  else F32.fin neg m e

/-- Rounding to nearest, ties to even: the binary32 value nearest to
`(-1)^neg * (n + d) * 2^e`, where `d = 0` when `sticky` is false and
`0 < d < 1` when it is true (`sticky` comes only with an `n` of more than 24
binary digits). -/
def F32.round (neg : Bool) (n : Nat) (e : Int) (sticky : Bool) : F32 :=
  if n = 0 then F32.fin neg 0 (-149)
  else
    let E : Int := max (e + (F32.bitLen n : Int) - 24) (-149)
    if E ≤ e then F32.pack neg (n * 2 ^ (e - E).toNat) E
    else
      let s := (E - e).toNat
      let q := n / 2 ^ s
      let r := n % 2 ^ s
      let half := 2 ^ (s - 1)
      let up := decide (half < r) || (decide (r = half) && (sticky || decide (q % 2 = 1)))
      F32.pack neg (if up then q + 1 else q) E

/-- The integer `n` with the sign `neg`. -/
def F32.signed (neg : Bool) (n : Nat) : Int :=
  if neg then -(n : Int) else (n : Int)

/-- Unary minus: the sign bit is flipped. -/
def F32.neg : F32 → F32
  | F32.nan => F32.nan
  | F32.inf s => F32.inf (!s)
  | F32.fin s m e => F32.fin (!s) m e

/-- Multiplication: the exact product, rounded; infinity times zero is
not-a-number. -/
def F32.mul : F32 → F32 → F32
  | F32.nan, _ => F32.nan
  | _, F32.nan => F32.nan
  | F32.inf s, F32.inf t => F32.inf (xor s t)
  | F32.inf s, F32.fin t n _ => if n = 0 then F32.nan else F32.inf (xor s t)
  | F32.fin s m _, F32.inf t => if m = 0 then F32.nan else F32.inf (xor s t)
  | F32.fin s m e, F32.fin t n f => F32.round (xor s t) (m * n) (e + f) false

/-- Addition: the exact sum, rounded.  Adding a zero to a nonzero value gives
that value; a sum that is exactly zero is `+0`, except `-0 + -0 = -0`;
infinities of opposite sign give not-a-number. -/
def F32.add : F32 → F32 → F32
  | F32.nan, _ => F32.nan
  | _, F32.nan => F32.nan
  | F32.inf s, F32.inf t => if s = t then F32.inf s else F32.nan
  | F32.inf s, F32.fin _ _ _ => F32.inf s
  | F32.fin _ _ _, F32.inf t => F32.inf t
  | F32.fin s m e, F32.fin t n f =>
    if n = 0 then (if m = 0 then F32.fin (s && t) 0 (-149) else F32.fin s m e)
    else if m = 0 then F32.fin t n f
    else
      let g := min e f
      let k : Int :=
        F32.signed s (m * 2 ^ (e - g).toNat) + F32.signed t (n * 2 ^ (f - g).toNat)
      if k = 0 then F32.fin false 0 (-149) else F32.round (decide (k < 0)) k.natAbs g false

/-- Division: the exact quotient, rounded, from a quotient of integers carried
to 50 more binary digits with the rest of the division as sticky bit.  A
nonzero value divided by zero is an infinity, `0 / 0` and `inf / inf` are
not-a-number. -/
def F32.div : F32 → F32 → F32
  | F32.nan, _ => F32.nan
  | _, F32.nan => F32.nan
  | F32.inf _, F32.inf _ => F32.nan
  | F32.inf s, F32.fin t _ _ => F32.inf (xor s t)
  | F32.fin s _ _, F32.inf t => F32.fin (xor s t) 0 (-149)
  | F32.fin s m e, F32.fin t n f =>
    if n = 0 then (if m = 0 then F32.nan else F32.inf (xor s t))
    else if m = 0 then F32.fin (xor s t) 0 (-149)
    else
      F32.round (xor s t) (m * 2 ^ 50 / n) (e - f - 50) (decide (m * 2 ^ 50 % n ≠ 0))

/-- The conversion of a nonnegative integer to `float`. -/
def F32.ofNat (n : Nat) : F32 := F32.round false n 0 false

/-- The decimal literal `n / d` as a `float` (`1.62f` is `F32.ofQuot 162 100`):
the binary32 value nearest to the quotient, for `n` and `d` below `2^24`. -/
def F32.ofQuot (n d : Nat) : F32 := F32.div (F32.ofNat n) (F32.ofNat d)

instance : Zero F32 := ⟨F32.fin false 0 (-149)⟩

instance : One F32 := ⟨F32.ofNat 1⟩

instance : OfNat F32 2 := ⟨F32.ofNat 2⟩

instance : Add F32 := ⟨F32.add⟩

instance : Sub F32 := ⟨fun a b => F32.add a (F32.neg b)⟩

instance : Mul F32 := ⟨F32.mul⟩

instance : Neg F32 := ⟨F32.neg⟩

instance : Div F32 := ⟨F32.div⟩

/-- Whether the value is `+0` or `-0`. -/
def F32.isZero : F32 → Bool
  | F32.fin _ m _ => decide (m = 0)
  | _ => false

/-- Whether the value is neither an infinity nor a not-a-number. -/
def F32.isFinite : F32 → Bool
  | F32.fin _ _ _ => true
  | _ => false

/-- The two values have the same bits, or both are zeros (`+0` and `-0`
compare equal in C++). -/
def F32.sameValue (x y : F32) : Prop :=
  x = y ∨ (x.isZero = true ∧ y.isZero = true)

/-- A stand-in for the library `sin` near zero, `sin t = t`: it agrees with
the library function at `t = 0`, the only argument it is given in the
examples. -/
def F32.sinNearZero (t : F32) : F32 := t

/-- A stand-in for the library `cos` near zero, `cos t = 1`: it agrees with
the library function at `t = 0`, the only argument it is given in the
examples. -/
def F32.cosNearZero (_t : F32) : F32 := 1

end Binary32

section Examples

/-- A polynomial stand-in for `sin` on the rationals, for evaluating the model
on concrete inputs. -/
def polySin (x : ℚ) : ℚ := x - x ^ 3 / 6

/-- A polynomial stand-in for `cos` on the rationals, for evaluating the model
on concrete inputs. -/
def polyCos (x : ℚ) : ℚ := 1 - x ^ 2 / 2

/-- A model just built by the explicit constructor, with `m = 2`, `I = 3`,
`r = 1/4`, `g = 10`. -/
def freshModel : Model ℚ :=
  construct ![2, 3, 1 / 4, 10] ![1, 2, 0, 3, 4, 5]

/-- A model in mid-flight with the same `m` and `g` as `freshModel` but other
`I`, `r`, state, input, goal and history. -/
def busyModel : Model ℚ :=
  { z := ![7, 8, 1, 0, 1, 2]
    z_dot := ![1, 1, 1, 1, 1, 1]
    z_goal := ![5, 5, 0, 0, 0, 0]
    params := ![2, 9, 1 / 2, 10]
    input := ![3, 4]
    z_history := [![6, 7, 1]] }

/-- The model `busyModel` with the parameters of `freshModel`. -/
def busyModelSameParams : Model ℚ :=
  { busyModel with params := freshModel.params }

/-- The model of the specification's linearisation test, `m = 1`, `I = 1`,
`r = 1` and gravity `g`, at rest at the origin. -/
def referenceModel {F : Type} [Zero F] [One F] (g : F) : Model F :=
  construct ![1, 1, 1, g] (vecZero 6)

/-- A model with the state and parameters of `freshModel` and another stored
input, derivative, goal and history. -/
def staleModel : Model ℚ :=
  { z := freshModel.z
    z_dot := ![9, 9, 9, 9, 9, 9]
    z_goal := ![1, 1, 1, 1, 1, 1]
    params := freshModel.params
    input := ![7, 8]
    z_history := [![0, 0, 0], ![1, 1, 1]] }

/-- A model in level flight at unit speed (`theta = 0`, `theta_dot = 0`,
`x_dot = y_dot = 1`) with `m = 1`, `I = 1`, `r = 1` and gravity `g`. -/
def cruiseModel {F : Type} [Zero F] [One F] (g : F) : Model F :=
  construct ![1, 1, 1, g] ![0, 1, 0, 1, 1, 0]

/-- A model at rest at the origin with `m = 5`, `I = 1`, `r = 1` and
`g = 1.62f`. -/
def lunarModel : Model F32 :=
  construct ![F32.ofNat 5, 1, 1, F32.ofQuot 162 100] (vecZero 6)

/-- A model in level flight, `z = (1, 2, 0, 3, 0, 0)`, with `m = 5`, `I = 1`,
`r = 1` and `g = 1.62f`. -/
def lunarLevelModel : Model F32 :=
  construct ![F32.ofNat 5, 1, 1, F32.ofQuot 162 100] ![1, 2, 0, F32.ofNat 3, 0, 0]

/-- A model at rest at the origin with `m = 1`, `r = 1`, `g = 9.8f` and the
rotational inertia `I = 0`. -/
def singularModel : Model F32 :=
  construct ![1, 0, 1, F32.ofQuot 98 10] (vecZero 6)

/-- A model in level flight, `z = (1, 2, 0, 3, 4, 0)`, with `m = 1`, `r = 1`,
`g = 9.8f` and the rotational inertia `I = 0`. -/
def singularLevelModel : Model F32 :=
  construct ![1, 0, 1, F32.ofQuot 98 10] ![1, 2, 0, F32.ofNat 3, F32.ofNat 4, 0]

/-- A model at rest at the origin with `m = 2^127`, `I = 1`, `r = 1` and
`g = 4`, whose hover thrust `m * g / 2` overflows. -/
def heavyModel : Model F32 :=
  construct ![F32.fin false (2 ^ 23) 104, 1, 1, F32.ofNat 4] (vecZero 6)

/-- A model with `x = 0.1f`, `x_dot = 1` and every other state component
zero, `m = I = r = 1`, `g = 9.8f`. -/
def driftModel : Model F32 :=
  construct ![1, 1, 1, F32.ofQuot 98 10] ![F32.ofQuot 1 10, 0, 0, 1, 0, 0]

/-- Two steps of a simulation loop. -/

def twoSteps : List ((Fin 2 → ℚ) × ℚ) :=
  [(![1, 2], 1 / 10), (![10, 10], 1 / 5)]

end Examples

/-! ## Properties that hold for any arithmetic -/

section Shape

variable {F : Type} [Add F] [Sub F] [Mul F] [Div F] [Neg F]

theorem DoCalcTimeDerivatives_z_dot (sin cos : F → F) (q : Model F) :
    (DoCalcTimeDerivatives sin cos q).z_dot = specDynamics sin cos q.params q.z q.input := by
  funext i
  fin_cases i <;> rfl

theorem Update_snd (sin cos : F → F) (q : Model F) (u : Fin 2 → F) (dt : F) :
    (Update sin cos q u dt).2 =
      { z := fun i => q.z i + dt * specDynamics sin cos q.params q.z u i
        z_dot := specDynamics sin cos q.params q.z u
        z_goal := q.z_goal
        params := q.params
        input := u
        z_history := q.z_history ++
          [![q.z 0 + dt * q.z 3, q.z 1 + dt * q.z 4, q.z 2 + dt * q.z 5]] } := by
  simp only [Update, UpdateHistory, DoUpdateState, DoCalcTimeDerivatives_z_dot]
  rfl

theorem Update_fst (sin cos : F → F) (q : Model F) (u : Fin 2 → F) (dt : F) :
    (Update sin cos q u dt).1 = (Update sin cos q u dt).2.z := rfl

theorem runUpdates_nil (sin cos : F → F) (q : Model F) :
    runUpdates sin cos q [] = q := rfl

theorem runUpdates_snoc (sin cos : F → F) (q : Model F) (steps : List ((Fin 2 → F) × F))
    (s : (Fin 2 → F) × F) :
    runUpdates sin cos q (steps ++ [s]) =
      (Update sin cos (runUpdates sin cos q steps) s.1 s.2).2 := by
  simp [runUpdates, List.foldl_append]

theorem Update_history (sin cos : F → F) (q : Model F) (u : Fin 2 → F) (dt : F) :
    (Update sin cos q u dt).2.z_history =
      q.z_history ++ [![(Update sin cos q u dt).2.z 0, (Update sin cos q u dt).2.z 1,
        (Update sin cos q u dt).2.z 2]] := rfl

theorem runUpdates_history_length (sin cos : F → F) (q : Model F)
    (steps : List ((Fin 2 → F) × F)) :
    (runUpdates sin cos q steps).z_history.length = q.z_history.length + steps.length := by
  induction steps using List.reverseRecOn with
  | nil => simp [runUpdates_nil]
  | append_singleton l s ih =>
    rw [runUpdates_snoc, Update_history, List.length_append, ih]
    simp
    omega

theorem runUpdates_history_get (sin cos : F → F) (q : Model F)
    (steps : List ((Fin 2 → F) × F)) (k : Nat) (hk : k < steps.length) :
    (runUpdates sin cos q steps).z_history[q.z_history.length + k]? =
      some ![(runUpdates sin cos q (steps.take (k + 1))).z 0,
        (runUpdates sin cos q (steps.take (k + 1))).z 1,
        (runUpdates sin cos q (steps.take (k + 1))).z 2] := by
  induction steps using List.reverseRecOn with
  | nil => simp at hk
  | append_singleton l s ih =>
    rw [runUpdates_snoc, Update_history]
    have hlen := runUpdates_history_length sin cos q l
    rw [List.length_append, List.length_singleton] at hk
    by_cases hlt : k < l.length
    · rw [List.getElem?_append_left (by omega), ih hlt,
        List.take_append_of_le_length (by omega)]
    · have hkl : k = l.length := by omega
      subst hkl
      rw [List.getElem?_append_right (by omega)]
      have htake : List.take (l.length + 1) (l ++ [s]) = l ++ [s] := by
        apply List.take_of_length_le
        simp
      rw [htake, runUpdates_snoc]
      simp [hlen]

/-- C3: `Update(u, dt)` stores `u` as the current input, and both the value it
returns and the state it leaves are `z + dt * f(z, u)` with `f` the dynamics of
the specification evaluated at the state held before the call; in particular
the positions advance with the old velocities. -/
theorem Update_is_forward_euler (sin cos : F → F) (q : Model F) (u : Fin 2 → F) (dt : F) :
    (Update sin cos q u dt).2.input = u ∧
    (∀ i, (Update sin cos q u dt).1 i = q.z i + dt * specDynamics sin cos q.params q.z u i) ∧
    (∀ i, (Update sin cos q u dt).2.z i =
      q.z i + dt * specDynamics sin cos q.params q.z u i) ∧
    (Update sin cos q u dt).1 0 = q.z 0 + dt * q.z 3 ∧
    (Update sin cos q u dt).1 1 = q.z 1 + dt * q.z 4 ∧
    (Update sin cos q u dt).1 2 = q.z 2 + dt * q.z 5 := by
  rw [Update_fst, Update_snd]
  exact ⟨rfl, fun _ => rfl, fun _ => rfl, rfl, rfl, rfl⟩

/-- C4: starting from a model with an empty history, after one `Update` per
entry of `steps` the history has exactly `steps.length` columns, and column
`k` (counted from 0) is the `(x, y, theta)` part of the state as it was right
after the first `k + 1` updates. -/
theorem history_growth (sin cos : F → F) (q : Model F) (steps : List ((Fin 2 → F) × F))
    (hfresh : q.z_history = []) :
    (runUpdates sin cos q steps).z_history.length = steps.length ∧
    ∀ k, k < steps.length →
      (runUpdates sin cos q steps).z_history[k]? =
        some ![(runUpdates sin cos q (steps.take (k + 1))).z 0,
          (runUpdates sin cos q (steps.take (k + 1))).z 1,
          (runUpdates sin cos q (steps.take (k + 1))).z 2] := by
  constructor
  · rw [runUpdates_history_length, hfresh]
    simp
  · intro k hk
    have h := runUpdates_history_get sin cos q steps k hk
    rw [hfresh] at h
    simpa using h

/-- Witness of C4: two steps from a freshly constructed model. -/
theorem history_growth_witness :
    freshModel.z_history = [] ∧
    (runUpdates polySin polyCos freshModel twoSteps).z_history.length = twoSteps.length ∧
    ∀ k, k < twoSteps.length →
      (runUpdates polySin polyCos freshModel twoSteps).z_history[k]? =
        some ![(runUpdates polySin polyCos freshModel (twoSteps.take (k + 1))).z 0,
          (runUpdates polySin polyCos freshModel (twoSteps.take (k + 1))).z 1,
          (runUpdates polySin polyCos freshModel (twoSteps.take (k + 1))).z 2] :=
  ⟨rfl, history_growth polySin polyCos freshModel twoSteps rfl⟩

/-- C9: `Update(dt)` is `Update(u_last, dt)` for the stored input `u_last`:
the two calls return the same state and leave the same model (state,
derivative, history, input), the stored input is still `u_last` afterwards,
and `u_last` is whatever `SetInput` or the previous `Update` stored. -/
theorem UpdateDt_eq_Update_last (sin cos : F → F) (q : Model F) (u : Fin 2 → F)
    (dt dt0 : F) :
    UpdateDt sin cos q dt = Update sin cos q q.input dt ∧
    (UpdateDt sin cos q dt).2.input = q.input ∧
    (Update sin cos q q.input dt).2.input = q.input ∧
    UpdateDt sin cos (SetInput q u) dt = Update sin cos q u dt ∧
    UpdateDt sin cos (Update sin cos q u dt0).2 dt =
      Update sin cos (Update sin cos q u dt0).2 u dt :=
  ⟨rfl, rfl, rfl, rfl, rfl⟩

end Shape

/-- C5: `GravityCompInput()` returns `(m*g/2, m*g/2)`, leaves the model as it
is, and its result is the same for any two models with the same `m` and `g`,
whatever their `I`, `r`, state, input, goal and history. -/
theorem GravityCompInput_value {F : Type} [OfNat F 2] [Mul F] [Div F] (q : Model F) :
    (GravityCompInput q).1 = ![q.params 0 * q.params 3 / 2, q.params 0 * q.params 3 / 2] ∧
    (GravityCompInput q).2 = q ∧
    ∀ q0 : Model F, q0.params 0 = q.params 0 → q0.params 3 = q.params 3 →
      (GravityCompInput q0).1 = (GravityCompInput q).1 := by
  refine ⟨?_, rfl, ?_⟩
  · funext i
    fin_cases i <;> rfl
  · intro q0 hm hg
    simp only [GravityCompInput, hm, hg]

/-- Witness of C5: two models that share only `m = 2` and `g = 10`. -/
theorem GravityCompInput_value_witness :
    (GravityCompInput busyModel).1 = (GravityCompInput freshModel).1 :=
  (GravityCompInput_value freshModel).2.2 busyModel rfl rfl

section ShapeLinearize

variable {F : Type} [Zero F] [One F] [OfNat F 2] [Add F] [Mul F] [Div F] [Neg F]

/-- C10: `Linearize()` leaves every field of the model as it is, its result is
the same for any two models with the same `params`, and a second call returns
the same matrices as the first. -/
theorem Linearize_pure (sin cos : F → F) (q : Model F) :
    (Linearize sin cos q).2 = q ∧
    (∀ q0 : Model F, q0.params = q.params →
      (Linearize sin cos q0).1 = (Linearize sin cos q).1) ∧
    (Linearize sin cos (Linearize sin cos q).2).1 = (Linearize sin cos q).1 := by
  refine ⟨rfl, ?_, rfl⟩
  intro q0 h
  simp only [Linearize, GravityCompInput, h]

/-- Witness of C10: two models with equal `params` and different state, input,
goal and history. -/
theorem Linearize_pure_witness :
    busyModelSameParams.params = freshModel.params ∧
    busyModelSameParams.z ≠ freshModel.z ∧
    (Linearize polySin polyCos busyModelSameParams).1 =
      (Linearize polySin polyCos freshModel).1 :=
  ⟨rfl, by
    intro h
    have h0 := congrFun h 0
    simp [busyModelSameParams, busyModel, freshModel, construct] at h0,
   (Linearize_pure polySin polyCos freshModel).2.1 busyModelSameParams rfl⟩

theorem specDynamics_apply {F : Type} [Add F] [Sub F] [Mul F] [Div F] [Neg F]
    (sin cos : F → F) (p : Fin 4 → F) (z : Fin 6 → F) (u : Fin 2 → F) (i : Fin 6) :
    specDynamics sin cos p z u i =
      if i.val = 0 then z 3 else if i.val = 1 then z 4 else if i.val = 2 then z 5
      else if i.val = 3 then (-(u 0 + u 1)) * sin (z 2) / p 0
      else if i.val = 4 then (u 0 + u 1) * cos (z 2) / p 0 - p 3
      else p 2 * (u 0 - u 1) / p 1 := by
  fin_cases i <;> rfl

theorem Linearize_A (sin cos : F → F) (q : Model F) :
    (Linearize sin cos q).1.1 =
      ![![0, 0, 0, 1, 0, 0],
        ![0, 0, 0, 0, 1, 0],
        ![0, 0, 0, 0, 0, 1],
        ![0, 0, (-((GravityCompInput q).1 0 + (GravityCompInput q).1 1)) * cos 0 / q.params 0,
          0, 0, 0],
        ![0, 0, (-((GravityCompInput q).1 0 + (GravityCompInput q).1 1)) * sin 0 / q.params 0,
          0, 0, 0],
        ![0, 0, 0, 0, 0, 0]] := by
  funext i j
  fin_cases i <;> fin_cases j <;> rfl

theorem Linearize_A_apply (sin cos : F → F) (q : Model F) (i j : Fin 6) :
    (Linearize sin cos q).1.1 i j =
      if i.val = 4 ∧ j.val = 2 then
        (-((GravityCompInput q).1 0 + (GravityCompInput q).1 1)) * sin 0 / q.params 0
      else if i.val = 3 ∧ j.val = 2 then
        (-((GravityCompInput q).1 0 + (GravityCompInput q).1 1)) * cos 0 / q.params 0
      else if i.val + 3 = j.val then 1 else 0 := by
  fin_cases i <;> fin_cases j <;> rfl

theorem Linearize_B (sin cos : F → F) (q : Model F) :
    (Linearize sin cos q).1.2 =
      ![![0, 0], ![0, 0], ![0, 0],
        ![(-(sin 0)) / q.params 0, (-(sin 0)) / q.params 0],
        ![cos 0 / q.params 0, cos 0 / q.params 0],
        ![q.params 2 / q.params 1, (-(q.params 2)) / q.params 1]] := by
  funext i j
  fin_cases i <;> fin_cases j <;> rfl

theorem Linearize_B_apply (sin cos : F → F) (q : Model F) (i : Fin 6) (k : Fin 2) :
    (Linearize sin cos q).1.2 i k =
      if i.val = 5 then
        (if k.val = 0 then q.params 2 / q.params 1 else (-(q.params 2)) / q.params 1)
      else if i.val = 4 then cos 0 / q.params 0
      else if i.val = 3 then (-(sin 0)) / q.params 0
      else 0 := by
  fin_cases i <;> fin_cases k <;> rfl

end ShapeLinearize

/-! ## Properties in exact real arithmetic -/

section Exact

theorem referenceModel_mass (g : ℝ) : (referenceModel g).params 0 ≠ 0 := by
  simp [referenceModel, construct]

theorem referenceModel_inertia (g : ℝ) : (referenceModel g).params 1 ≠ 0 := by
  simp [referenceModel, construct]

theorem hover_thrust (q : Model ℝ) (hm : q.params 0 ≠ 0) :
    ((GravityCompInput q).1 0 + (GravityCompInput q).1 1) / q.params 0 = q.params 3 := by
  simp only [GravityCompInput, vecConstant]
  field_simp

/-- C1: for `m ≠ 0` and `I ≠ 0` the matrices returned by `Linearize()` are the
Jacobians of the dynamics computed by `DoCalcTimeDerivatives`: `A i j` is the
derivative of component `i` of `z_dot` with respect to `z j`, and `B i k` the
derivative with respect to `u k`, at `z = 0` and `u = GravityCompInput()`. -/
theorem Linearize_is_jacobian (q : Model ℝ) (_hm : q.params 0 ≠ 0) (_hI : q.params 1 ≠ 0) :
    (∀ i j, HasDerivAt
      (fun t => (DoCalcTimeDerivatives Real.sin Real.cos
        { q with z := Function.update (vecZero 6) j t, input := (GravityCompInput q).1 }).z_dot i)
      ((Linearize Real.sin Real.cos q).1.1 i j) 0) ∧
    (∀ i k, HasDerivAt
      (fun t => (DoCalcTimeDerivatives Real.sin Real.cos
        { q with z := vecZero 6, input := Function.update (GravityCompInput q).1 k t }).z_dot i)
      ((Linearize Real.sin Real.cos q).1.2 i k) ((GravityCompInput q).1 k)) := by
  constructor
  · intro i j
    rw [Linearize_A_apply]
    simp only [DoCalcTimeDerivatives_z_dot, specDynamics_apply]
    fin_cases i <;> fin_cases j <;> simp [vecZero, Function.update_apply]
    all_goals first | exact hasDerivAt_const _ _ | exact hasDerivAt_id _ | skip
    · have h := ((Real.hasDerivAt_sin 0).const_mul
        (-(GravityCompInput q).1 1 + -(GravityCompInput q).1 0)).div_const (q.params 0)
      convert h using 1
      simp
    · have h := (((Real.hasDerivAt_cos 0).const_mul
        ((GravityCompInput q).1 0 + (GravityCompInput q).1 1)).div_const (q.params 0)).sub_const
          (q.params 3)
      convert h using 1
      simp
  · intro i k
    rw [Linearize_B_apply]
    simp only [DoCalcTimeDerivatives_z_dot, specDynamics_apply]
    fin_cases i <;> fin_cases k <;> simp [vecZero, Function.update_apply]
    all_goals first | exact hasDerivAt_const _ _ | exact hasDerivAt_id _ | skip
    · have h := (((hasDerivAt_id' ((GravityCompInput q).1 0)).add_const
        ((GravityCompInput q).1 1)).div_const (q.params 0)).sub_const (q.params 3)
      convert h using 1
      simp
    · have h := (((hasDerivAt_id' ((GravityCompInput q).1 1)).const_add
        ((GravityCompInput q).1 0)).div_const (q.params 0)).sub_const (q.params 3)
      convert h using 1
      simp
    · have h := (((hasDerivAt_id' ((GravityCompInput q).1 0)).sub_const
        ((GravityCompInput q).1 1)).const_mul (q.params 2)).div_const (q.params 1)
      convert h using 1
      simp
    · have h := (((hasDerivAt_id' ((GravityCompInput q).1 1)).const_sub
        ((GravityCompInput q).1 0)).const_mul (q.params 2)).div_const (q.params 1)
      convert h using 1
      simp

/-- Witness of C1: the model with `m = I = r = 1`, `g = 9.8`; there the
derivative of the horizontal acceleration with respect to `theta` is the entry
`A 3 2`. -/
theorem Linearize_is_jacobian_witness :
    (referenceModel (9.8 : ℝ)).params 0 ≠ 0 ∧ (referenceModel (9.8 : ℝ)).params 1 ≠ 0 ∧
    HasDerivAt
      (fun t => (DoCalcTimeDerivatives Real.sin Real.cos
        { referenceModel (9.8 : ℝ) with
          z := Function.update (vecZero 6) 2 t
          input := (GravityCompInput (referenceModel (9.8 : ℝ))).1 }).z_dot 3)
      ((Linearize Real.sin Real.cos (referenceModel (9.8 : ℝ))).1.1 3 2) 0 :=
  ⟨referenceModel_mass 9.8, referenceModel_inertia 9.8,
    (Linearize_is_jacobian (referenceModel 9.8) (referenceModel_mass 9.8)
      (referenceModel_inertia 9.8)).1 3 2⟩

/-- C6: for `m ≠ 0` and `I ≠ 0` the matrix `B` returned by `Linearize()` has
rows 0 to 3 equal to `[0, 0]`, row 4 equal to `[1/m, 1/m]` and row 5 equal to
`[r/I, -r/I]`. -/
theorem Linearize_B_rows (q : Model ℝ) (_hm : q.params 0 ≠ 0) (_hI : q.params 1 ≠ 0) :
    (Linearize Real.sin Real.cos q).1.2 =
      ![![0, 0], ![0, 0], ![0, 0], ![0, 0],
        ![1 / q.params 0, 1 / q.params 0],
        ![q.params 2 / q.params 1, -(q.params 2 / q.params 1)]] := by
  rw [Linearize_B]
  simp [neg_div]

/-- Witness of C6: the reference model. -/
theorem Linearize_B_rows_witness :
    (Linearize Real.sin Real.cos (referenceModel (9.8 : ℝ))).1.2 =
      ![![0, 0], ![0, 0], ![0, 0], ![0, 0],
        ![1 / (referenceModel (9.8 : ℝ)).params 0, 1 / (referenceModel (9.8 : ℝ)).params 0],
        ![(referenceModel (9.8 : ℝ)).params 2 / (referenceModel (9.8 : ℝ)).params 1,
          -((referenceModel (9.8 : ℝ)).params 2 / (referenceModel (9.8 : ℝ)).params 1)]] :=
  Linearize_B_rows (referenceModel 9.8) (referenceModel_mass 9.8) (referenceModel_inertia 9.8)

theorem Linearize_A_theta (q : Model ℝ) :
    (Linearize Real.sin Real.cos q).1.1 3 2 =
      -((GravityCompInput q).1 0 + (GravityCompInput q).1 1) / q.params 0 := by
  show (-((GravityCompInput q).1 0 + (GravityCompInput q).1 1)) * Real.cos 0 / q.params 0 = _
  rw [Real.cos_zero, mul_one]

theorem Linearize_A_real (q : Model ℝ) (hm : q.params 0 ≠ 0) :
    (Linearize Real.sin Real.cos q).1.1 =
      ![![0, 0, 0, 1, 0, 0],
        ![0, 0, 0, 0, 1, 0],
        ![0, 0, 0, 0, 0, 1],
        ![0, 0, -(q.params 3), 0, 0, 0],
        ![0, 0, 0, 0, 0, 0],
        ![0, 0, 0, 0, 0, 0]] := by
  have h : (-((GravityCompInput q).1 0 + (GravityCompInput q).1 1)) * Real.cos 0 / q.params 0
      = -(q.params 3) := by
    rw [Real.cos_zero, mul_one, neg_div, hover_thrust q hm]
  rw [Linearize_A, h]
  simp

/-- C7 as stated fails: with `m = 1`, `I = 1`, `r = 1`, `g = 9.8` the block of
`A` at rows 3-5, columns 0-2 is not the zero matrix, because `A 3 2 = -9.8`. -/
theorem Linearize_A_lower_block_not_zero :
    ¬ ∀ i j : Fin 6, 3 ≤ i.val → j.val ≤ 2 →
      (Linearize Real.sin Real.cos (referenceModel (9.8 : ℝ))).1.1 i j = 0 := by
  intro h
  have h32 := h 3 2 (by decide) (by decide)
  rw [Linearize_A_theta, neg_div, hover_thrust _ (referenceModel_mass 9.8)] at h32
  norm_num [referenceModel, construct] at h32

/-- C7, amended: with `m = 1`, `I = 1`, `r = 1`, `g = 9.8` the block of `A` at
rows 3-5, columns 0-2 is `[[0, 0, -9.8], [0, 0, 0], [0, 0, 0]]`. -/
theorem Linearize_A_lower_block (q : Model ℝ) (hp : q.params = ![1, 1, 1, 9.8]) :
    (fun (i j : Fin 3) =>
      (Linearize Real.sin Real.cos q).1.1 ⟨i.val + 3, by omega⟩ ⟨j.val, by omega⟩) =
      ![![0, 0, -9.8], ![0, 0, 0], ![0, 0, 0]] := by
  have hm : q.params 0 ≠ 0 := by
    rw [hp]
    simp
  have hg : q.params 3 = 9.8 := by
    rw [hp]
    rfl
  rw [Linearize_A_real q hm, hg]
  funext i j
  fin_cases i <;> fin_cases j <;> rfl

/-- Witness of C7, amended: the reference model. -/
theorem Linearize_A_lower_block_witness :
    (referenceModel (9.8 : ℝ)).params = ![1, 1, 1, 9.8] ∧
    (fun (i j : Fin 3) =>
      (Linearize Real.sin Real.cos (referenceModel (9.8 : ℝ))).1.1
        ⟨i.val + 3, by omega⟩ ⟨j.val, by omega⟩) =
      ![![0, 0, -9.8], ![0, 0, 0], ![0, 0, 0]] :=
  ⟨rfl, Linearize_A_lower_block (referenceModel 9.8) rfl⟩

end Exact

/-! ## Frame conditions and relational properties -/

section Frame

variable {F : Type}

theorem Call.apply_z_goal [Zero F] [One F] [OfNat F 2] [Add F] [Sub F] [Mul F] [Div F] [Neg F]
    (sin cos : F → F) (q : Model F) (c : Call F) :
    (Call.apply sin cos q c).z_goal = q.z_goal := by
  cases c <;> rfl

theorem runCalls_z_goal [Zero F] [One F] [OfNat F 2] [Add F] [Sub F] [Mul F] [Div F] [Neg F]
    (sin cos : F → F) (q : Model F) (calls : List (Call F)) :
    (runCalls sin cos q calls).z_goal = q.z_goal := by
  induction calls generalizing q with
  | nil => rfl
  | cons c rest ih =>
    show (runCalls sin cos (Call.apply sin cos q c) rest).z_goal = q.z_goal
    rw [ih, Call.apply_z_goal]

/-- C11: `SetGoal(zg)` stores `zg` and leaves `z` alone, no later call of
another member function changes the stored goal, and so after any sequence of
such calls `GetControlState()` returns the current `z` minus `zg`, component
by component. -/
theorem GetControlState_after_SetGoal [Zero F] [One F] [OfNat F 2] [Add F] [Sub F] [Mul F]
    [Div F] [Neg F] (sin cos : F → F) (q : Model F) (zg : Fin 6 → F) (calls : List (Call F)) :
    (SetGoal q zg).z_goal = zg ∧
    (SetGoal q zg).z = q.z ∧
    (runCalls sin cos (SetGoal q zg) calls).z_goal = zg ∧
    (GetControlState (runCalls sin cos (SetGoal q zg) calls)).1 =
      fun i => (runCalls sin cos (SetGoal q zg) calls).z i - zg i := by
  have h := runCalls_z_goal sin cos (SetGoal q zg) calls
  refine ⟨rfl, rfl, h, ?_⟩
  funext i
  show (runCalls sin cos (SetGoal q zg) calls).z i
    - (runCalls sin cos (SetGoal q zg) calls).z_goal i = _
  rw [h]
  rfl

/-- C12: a model built by the explicit constructor from `z0` has
`GetState() = z0`, and its history has no column. -/
theorem construct_state [Zero F] (params : Fin 4 → F) (z0 : Fin 6 → F) :
    (GetState (construct params z0)).1 = z0 ∧
    (construct params z0).z_history.length = 0 :=
  ⟨rfl, rfl⟩

/-- C13: `DoCalcTimeDerivatives()` writes all six components of `z_dot` from
the current `z`, `input` and `params`; the result does not depend on the old
`z_dot`, and `z`, `input`, `z_goal`, `params` and the history stay as they
are. -/
theorem DoCalcTimeDerivatives_fresh [Add F] [Sub F] [Mul F] [Div F] [Neg F]
    (sin cos : F → F) (q : Model F) (old : Fin 6 → F) :
    (DoCalcTimeDerivatives sin cos q).z_dot 0 = q.z 3 ∧
    (DoCalcTimeDerivatives sin cos q).z_dot 1 = q.z 4 ∧
    (DoCalcTimeDerivatives sin cos q).z_dot 2 = q.z 5 ∧
    (DoCalcTimeDerivatives sin cos q).z_dot 3 =
      (-(q.input 0 + q.input 1)) * sin (q.z 2) / q.params 0 ∧
    (DoCalcTimeDerivatives sin cos q).z_dot 4 =
      (q.input 0 + q.input 1) * cos (q.z 2) / q.params 0 - q.params 3 ∧
    (DoCalcTimeDerivatives sin cos q).z_dot 5 =
      q.params 2 * (q.input 0 - q.input 1) / q.params 1 ∧
    (DoCalcTimeDerivatives sin cos { q with z_dot := old }).z_dot =
      (DoCalcTimeDerivatives sin cos q).z_dot ∧
    (DoCalcTimeDerivatives sin cos q).z = q.z ∧
    (DoCalcTimeDerivatives sin cos q).input = q.input ∧
    (DoCalcTimeDerivatives sin cos q).z_goal = q.z_goal ∧
    (DoCalcTimeDerivatives sin cos q).params = q.params ∧
    (DoCalcTimeDerivatives sin cos q).z_history = q.z_history := by
  refine ⟨rfl, rfl, rfl, rfl, rfl, rfl, ?_, rfl, rfl, rfl, rfl, rfl⟩
  rw [DoCalcTimeDerivatives_z_dot, DoCalcTimeDerivatives_z_dot]

/-- C14: the step uses the input it is given, not a stored one.  Two models
with the same `z` and `params`, whatever their stored input, `z_dot`, goal and
history, return the same state from `Update(u, dt)` and are left with the same
`z`. -/
theorem Update_ignores_stale [Add F] [Sub F] [Mul F] [Div F] [Neg F]
    (sin cos : F → F) (q1 q2 : Model F) (u : Fin 2 → F) (dt : F)
    (hz : q1.z = q2.z) (hp : q1.params = q2.params) :
    (Update sin cos q1 u dt).1 = (Update sin cos q2 u dt).1 ∧
    (Update sin cos q1 u dt).2.z = (Update sin cos q2 u dt).2.z := by
  rw [Update_fst, Update_fst, Update_snd, Update_snd, hz, hp]
  exact ⟨rfl, rfl⟩

/-- Witness of C14: two models with the same state and parameters and another
stored input, derivative, goal and history. -/
theorem Update_ignores_stale_witness :
    staleModel.z = freshModel.z ∧ staleModel.params = freshModel.params ∧
    staleModel.input ≠ freshModel.input ∧
    (Update polySin polyCos staleModel ![1, 2] (1 / 10)).1 =
      (Update polySin polyCos freshModel ![1, 2] (1 / 10)).1 ∧
    (Update polySin polyCos staleModel ![1, 2] (1 / 10)).2.z =
      (Update polySin polyCos freshModel ![1, 2] (1 / 10)).2.z :=
  ⟨rfl, rfl, by
    intro h
    have h0 := congrFun h 0
    simp [staleModel, freshModel, construct, vecZero] at h0,
   Update_ignores_stale polySin polyCos staleModel freshModel ![1, 2] (1 / 10) rfl rfl⟩

/-- C15: `UpdateHistory(dt)` is a pure append.  The history gets exactly one
more column whatever its length, the old columns stay in place, the new last
column is `(z[0], z[1], z[2])`, the other fields of the model stay as they are,
and the result is the same for every `dt`. -/
theorem UpdateHistory_appends (q : Model F) (dt dt0 : F) :
    (UpdateHistory q dt).z_history.length = q.z_history.length + 1 ∧
    (UpdateHistory q dt).z_history.take q.z_history.length = q.z_history ∧
    (UpdateHistory q dt).z_history[q.z_history.length]? = some ![q.z 0, q.z 1, q.z 2] ∧
    (UpdateHistory q dt).z_history = q.z_history ++ [![q.z 0, q.z 1, q.z 2]] ∧
    (UpdateHistory q dt).z = q.z ∧
    (UpdateHistory q dt).z_dot = q.z_dot ∧
    (UpdateHistory q dt).input = q.input ∧
    (UpdateHistory q dt).z_goal = q.z_goal ∧
    (UpdateHistory q dt).params = q.params ∧
    UpdateHistory q dt0 = UpdateHistory q dt := by
  have h : (UpdateHistory q dt).z_history = q.z_history ++ [![q.z 0, q.z 1, q.z 2]] := rfl
  refine ⟨?_, ?_, ?_, h, rfl, rfl, rfl, rfl, rfl, rfl⟩
  · rw [h]
    simp
  · rw [h]
    simp
  · rw [h]
    simp

end Frame

/-! ## Properties in the binary32 arithmetic of `float` -/

section Float

theorem F32.isZero_iff {z : F32} : z.isZero = true ↔ ∃ s e, z = F32.fin s 0 e := by
  constructor
  · intro h
    cases z with
    | nan => simp [F32.isZero] at h
    | inf s => simp [F32.isZero] at h
    | fin s m e =>
      have hm : m = 0 := by simpa [F32.isZero] using h
      exact ⟨s, e, by rw [hm]⟩
  · rintro ⟨s, e, rfl⟩
    rfl

theorem F32.isFinite_iff {x : F32} : x.isFinite = true ↔ ∃ s m e, x = F32.fin s m e := by
  constructor
  · intro h
    cases x with
    | nan => simp [F32.isFinite] at h
    | inf s => simp [F32.isFinite] at h
    | fin s m e => exact ⟨s, m, e, rfl⟩
  · rintro ⟨s, m, e, rfl⟩
    rfl

theorem F32.isZero_zero : (0 : F32).isZero = true := rfl

theorem F32.mul_isZero {x z : F32} (hx : x.isFinite = true) (hz : z.isZero = true) :
    (x * z).isZero = true := by
  obtain ⟨s, m, e, rfl⟩ := F32.isFinite_iff.mp hx
  obtain ⟨t, f, rfl⟩ := F32.isZero_iff.mp hz
  show (F32.mul (F32.fin s m e) (F32.fin t 0 f)).isZero = true
  simp [F32.mul, F32.round, F32.isZero]

theorem F32.neg_isFinite {x : F32} (hx : x.isFinite = true) : (-x).isFinite = true := by
  obtain ⟨s, m, e, rfl⟩ := F32.isFinite_iff.mp hx
  rfl

theorem F32.div_isZero {z d : F32} (hz : z.isZero = true) (hd : d.isFinite = true)
    (hd0 : d.isZero = false) : (z / d).isZero = true := by
  obtain ⟨s, e, rfl⟩ := F32.isZero_iff.mp hz
  obtain ⟨t, n, f, rfl⟩ := F32.isFinite_iff.mp hd
  have hn : n ≠ 0 := by simpa [F32.isZero] using hd0
  show (F32.div (F32.fin s 0 e) (F32.fin t n f)).isZero = true
  simp [F32.div, F32.isZero, hn]

theorem F32.sub_self_eq_zero {c : F32} (hc : c.isFinite = true) : c - c = 0 := by
  obtain ⟨s, m, e, rfl⟩ := F32.isFinite_iff.mp hc
  show F32.add (F32.fin s m e) (F32.neg (F32.fin s m e)) = F32.fin false 0 (-149)
  by_cases hm : m = 0
  · subst hm
    simp [F32.add, F32.neg]
  · cases s <;> simp [F32.add, F32.neg, hm, F32.signed]

theorem F32.zero_add_isZero {z : F32} (hz : z.isZero = true) : (0 : F32) + z = 0 := by
  obtain ⟨t, f, rfl⟩ := F32.isZero_iff.mp hz
  show F32.add (F32.fin false 0 (-149)) (F32.fin t 0 f) = F32.fin false 0 (-149)
  simp [F32.add]

theorem F32.add_isZero_sameValue (x : F32) {z : F32} (hz : z.isZero = true) :
    F32.sameValue (x + z) x := by
  obtain ⟨t, f, rfl⟩ := F32.isZero_iff.mp hz
  cases x with
  | nan => exact Or.inl rfl
  | inf s => exact Or.inl rfl
  | fin s m e =>
    by_cases hm : m = 0
    · subst hm
      refine Or.inr ⟨?_, rfl⟩
      show (F32.add (F32.fin s 0 e) (F32.fin t 0 f)).isZero = true
      simp [F32.add, F32.isZero]
    · refine Or.inl ?_
      show F32.add (F32.fin s m e) (F32.fin t 0 f) = F32.fin s m e
      simp [F32.add, hm]

theorem F32.isFinite_of_add_self {c : F32} (h : (c + c).isFinite = true) :
    c.isFinite = true := by
  cases c with
  | nan => exact h
  | inf s =>
    have hs : (F32.inf s + F32.inf s : F32) = F32.inf s := by
      show F32.add (F32.inf s) (F32.inf s) = F32.inf s
      simp [F32.add]
    rw [hs] at h
    exact h
  | fin s m e => rfl

theorem F32.zero_add_mul_isZero {dt f : F32} (hdt : dt.isFinite = true)
    (hf : f.isZero = true) : (0 : F32) + dt * f = 0 :=
  F32.zero_add_isZero (F32.mul_isZero hdt hf)

/-- The accelerations computed in level attitude under the hover input are
zeros when the thrust is finite and cancels gravity without rounding error. -/
theorem level_accelerations (sin cos : F32 → F32) (q : Model F32) (hsin : sin 0 = 0)
    (hm : (q.params 0).isFinite = true) (hm0 : (q.params 0).isZero = false)
    (hI : (q.params 1).isFinite = true) (hI0 : (q.params 1).isZero = false)
    (hr : (q.params 2).isFinite = true)
    (hu : ((GravityCompInput q).1 0 + (GravityCompInput q).1 1).isFinite = true)
    (hexact : (((GravityCompInput q).1 0 + (GravityCompInput q).1 1) * cos 0 / q.params 0
      - q.params 3).isZero = true)
    (hth : q.z 2 = 0) :
    (specDynamics sin cos q.params q.z (GravityCompInput q).1 3).isZero = true ∧
    (specDynamics sin cos q.params q.z (GravityCompInput q).1 4).isZero = true ∧
    (specDynamics sin cos q.params q.z (GravityCompInput q).1 5).isZero = true := by
  refine ⟨?_, ?_, ?_⟩
  · show ((-((GravityCompInput q).1 0 + (GravityCompInput q).1 1)) * sin (q.z 2)
      / q.params 0).isZero = true
    rw [hth, hsin]
    exact F32.div_isZero (F32.mul_isZero (F32.neg_isFinite hu) F32.isZero_zero) hm hm0
  · show (((GravityCompInput q).1 0 + (GravityCompInput q).1 1) * cos (q.z 2) / q.params 0
      - q.params 3).isZero = true
    rw [hth]
    exact hexact
  · show (q.params 2 * ((GravityCompInput q).1 0 - (GravityCompInput q).1 1)
      / q.params 1).isZero = true
    have hc : ((GravityCompInput q).1 0).isFinite = true := F32.isFinite_of_add_self hu
    have hsub : (GravityCompInput q).1 0 - (GravityCompInput q).1 1 = 0 :=
      F32.sub_self_eq_zero hc
    rw [hsub]
    exact F32.div_isZero (F32.mul_isZero hr F32.isZero_zero) hI hI0

/-- C8 as stated fails in the arithmetic of `float`: with `m = 5`,
`g = 1.62f` the entry `A 3 2` is `-1.62000012`, the `float` below `-g`; and with
`m = 2^127`, `g = 4` the hover thrust overflows and `A 4 2` is not-a-number
instead of zero. -/
theorem Linearize_A_theta_not_gravity :
    (lunarModel.params 0).isZero = false ∧
    (Linearize F32.sinNearZero F32.cosNearZero lunarModel).1.1 3 2 =
      F32.fin true 13589546 (-23) ∧
    -(lunarModel.params 3) = F32.fin true 13589545 (-23) ∧
    (Linearize F32.sinNearZero F32.cosNearZero lunarModel).1.1 3 2 ≠ -(lunarModel.params 3) ∧
    (heavyModel.params 0).isZero = false ∧
    (Linearize F32.sinNearZero F32.cosNearZero heavyModel).1.1 4 2 = F32.nan := by
  refine ⟨by decide, by decide, by decide, by decide, by decide, by decide⟩

/-- C8, amended: the matrix `A` returned by `Linearize()` has the identity in
rows 0-2, columns 3-5, the entries `A 3 2 = -(u_1 + u_2) * cos(0) / m` and
`A 4 2 = -(u_1 + u_2) * sin(0) / m` with `(u_1, u_2) = GravityCompInput()`, and
zero everywhere else; in the arithmetic of `float`, `A 4 2` is a zero when `m`
is finite and nonzero and the thrust `u_1 + u_2` is finite. -/
theorem Linearize_A_entries (sin cos : F32 → F32) (q : Model F32) :
    (Linearize sin cos q).1.1 =
      ![![0, 0, 0, 1, 0, 0],
        ![0, 0, 0, 0, 1, 0],
        ![0, 0, 0, 0, 0, 1],
        ![0, 0, (-((GravityCompInput q).1 0 + (GravityCompInput q).1 1)) * cos 0 / q.params 0,
          0, 0, 0],
        ![0, 0, (-((GravityCompInput q).1 0 + (GravityCompInput q).1 1)) * sin 0 / q.params 0,
          0, 0, 0],
        ![0, 0, 0, 0, 0, 0]] ∧
    (sin 0 = 0 → (q.params 0).isFinite = true → (q.params 0).isZero = false →
      ((GravityCompInput q).1 0 + (GravityCompInput q).1 1).isFinite = true →
      ((Linearize sin cos q).1.1 4 2).isZero = true) := by
  refine ⟨Linearize_A sin cos q, ?_⟩
  intro hsin hm hm0 hu
  show ((-((GravityCompInput q).1 0 + (GravityCompInput q).1 1)) * sin 0
    / q.params 0).isZero = true
  rw [hsin]
  exact F32.div_isZero (F32.mul_isZero (F32.neg_isFinite hu) F32.isZero_zero) hm hm0

/-- Witness of C8, amended: `m = I = r = 1`, `g = 9.8f`. -/
theorem Linearize_A_entries_witness :
    ((Linearize F32.sinNearZero F32.cosNearZero
      (referenceModel (F32.ofQuot 98 10))).1.1 4 2).isZero = true :=
  (Linearize_A_entries F32.sinNearZero F32.cosNearZero
    (referenceModel (F32.ofQuot 98 10))).2 rfl (by decide) (by decide) (by decide)

theorem Update_params {F : Type} [Add F] [Sub F] [Mul F] [Div F] [Neg F]
    (sin cos : F → F) (q : Model F) (u : Fin 2 → F) (dt : F) :
    (Update sin cos q u dt).2.params = q.params := rfl

theorem GravityCompInput_params (q1 q2 : Model F32) (h : q1.params = q2.params) :
    (GravityCompInput q1).1 = (GravityCompInput q2).1 := by
  simp only [GravityCompInput, h]

theorem level_step (sin cos : F32 → F32) (q : Model F32) (dt : F32) (hsin : sin 0 = 0)
    (hm : (q.params 0).isFinite = true) (hm0 : (q.params 0).isZero = false)
    (hI : (q.params 1).isFinite = true) (hI0 : (q.params 1).isZero = false)
    (hr : (q.params 2).isFinite = true)
    (hu : ((GravityCompInput q).1 0 + (GravityCompInput q).1 1).isFinite = true)
    (hexact : (((GravityCompInput q).1 0 + (GravityCompInput q).1 1) * cos 0 / q.params 0
      - q.params 3).isZero = true)
    (hdt : dt.isFinite = true) (hth : q.z 2 = 0) (hthd : q.z 5 = 0) :
    (Update sin cos q (GravityCompInput q).1 dt).2.z 2 = 0 ∧
    (Update sin cos q (GravityCompInput q).1 dt).2.z 5 = 0 ∧
    F32.sameValue ((Update sin cos q (GravityCompInput q).1 dt).2.z 3) (q.z 3) ∧
    F32.sameValue ((Update sin cos q (GravityCompInput q).1 dt).2.z 4) (q.z 4) := by
  obtain ⟨h3, h4, h5⟩ := level_accelerations sin cos q hsin hm hm0 hI hI0 hr hu hexact hth
  rw [Update_snd]
  refine ⟨?_, ?_, ?_, ?_⟩
  · show q.z 2 + dt * q.z 5 = 0
    rw [hth, hthd]
    exact F32.zero_add_mul_isZero hdt F32.isZero_zero
  · show q.z 5 + dt * specDynamics sin cos q.params q.z (GravityCompInput q).1 5 = 0
    rw [hthd]
    exact F32.zero_add_mul_isZero hdt h5
  · exact F32.add_isZero_sameValue (q.z 3) (F32.mul_isZero hdt h3)
  · exact F32.add_isZero_sameValue (q.z 4) (F32.mul_isZero hdt h4)

theorem runHover_level (sin cos : F32 → F32) (dts : List F32) (q : Model F32)
    (hsin : sin 0 = 0)
    (hm : (q.params 0).isFinite = true) (hm0 : (q.params 0).isZero = false)
    (hI : (q.params 1).isFinite = true) (hI0 : (q.params 1).isZero = false)
    (hr : (q.params 2).isFinite = true)
    (hu : ((GravityCompInput q).1 0 + (GravityCompInput q).1 1).isFinite = true)
    (hexact : (((GravityCompInput q).1 0 + (GravityCompInput q).1 1) * cos 0 / q.params 0
      - q.params 3).isZero = true)
    (hdts : ∀ d ∈ dts, d.isFinite = true) (hth : q.z 2 = 0) (hthd : q.z 5 = 0) :
    (runHover sin cos q dts).z 2 = 0 ∧ (runHover sin cos q dts).z 5 = 0 := by
  induction dts generalizing q with
  | nil => exact ⟨hth, hthd⟩
  | cons dt rest ih =>
    have hdt : dt.isFinite = true := hdts dt (List.mem_cons_self dt rest)
    have hstep := level_step sin cos q dt hsin hm hm0 hI hI0 hr hu hexact hdt hth hthd
    have hp := Update_params sin cos q (GravityCompInput q).1 dt
    have hg := GravityCompInput_params (Update sin cos q (GravityCompInput q).1 dt).2 q hp
    exact ih (Update sin cos q (GravityCompInput q).1 dt).2
      (by rw [hp]; exact hm) (by rw [hp]; exact hm0) (by rw [hp]; exact hI)
      (by rw [hp]; exact hI0) (by rw [hp]; exact hr) (by rw [hg]; exact hu)
      (by rw [hg, hp]; exact hexact)
      (fun d hd => hdts d (List.mem_cons_of_mem dt hd)) hstep.1 hstep.2.1

end Float

section Relational

variable {F : Type} [Add F] [Sub F] [Mul F] [Div F] [Neg F]

/-- C16 as stated fails in the arithmetic of `float`: from `x = 0.1f`,
`x_dot = 1` with `dt = 0.2f`, the step from the state shifted by `a = 1` gives
`x = (0.1f + 1) + 0.2f = 1.30000007`, while the step from the unshifted state
followed by the shift gives `(0.1f + 0.2f) + 1 = 1.29999995`. -/
theorem Update_translate_not_exact :
    (Update F32.sinNearZero F32.cosNearZero
      { driftModel with z := translate 1 0 driftModel.z } (vecZero 2) (F32.ofQuot 2 10)).1 0 =
      F32.fin false 10905191 (-23) ∧
    translate 1 0
      (Update F32.sinNearZero F32.cosNearZero driftModel (vecZero 2) (F32.ofQuot 2 10)).1 0 =
      F32.fin false 10905190 (-23) ∧
    (Update F32.sinNearZero F32.cosNearZero
      { driftModel with z := translate 1 0 driftModel.z } (vecZero 2) (F32.ofQuot 2 10)).1 ≠
    translate 1 0
      (Update F32.sinNearZero F32.cosNearZero driftModel (vecZero 2) (F32.ofQuot 2 10)).1 := by
  have h1 : (Update F32.sinNearZero F32.cosNearZero
      { driftModel with z := translate 1 0 driftModel.z } (vecZero 2) (F32.ofQuot 2 10)).1 0 =
      F32.fin false 10905191 (-23) := by decide
  have h2 : translate 1 0
      (Update F32.sinNearZero F32.cosNearZero driftModel (vecZero 2) (F32.ofQuot 2 10)).1 0 =
      F32.fin false 10905190 (-23) := by decide
  refine ⟨h1, h2, ?_⟩
  intro h
  have h0 := congrFun h 0
  rw [h1, h2] at h0
  exact absurd h0 (by decide)

/-- C16, amended: in any arithmetic, the step from the state with `x + a` and
`y + b` in place of `x` and `y` returns the same `theta`, `x_dot`, `y_dot` and
`theta_dot` as the step from `z` (the dynamics never read `x` or `y`), and the
position `((x + a) + dt * x_dot, (y + b) + dt * y_dot)`.  It is the result of
the step from `z` shifted by `(a, b)` exactly when the two sums are the same in
either order, `(x + a) + dt * x_dot = (x + dt * x_dot) + a` and likewise for
`y`. -/
theorem Update_translate (sin cos : F → F) (q : Model F) (a b : F) (u : Fin 2 → F) (dt : F) :
    (Update sin cos { q with z := translate a b q.z } u dt).1 2 = (Update sin cos q u dt).1 2 ∧
    (Update sin cos { q with z := translate a b q.z } u dt).1 3 = (Update sin cos q u dt).1 3 ∧
    (Update sin cos { q with z := translate a b q.z } u dt).1 4 = (Update sin cos q u dt).1 4 ∧
    (Update sin cos { q with z := translate a b q.z } u dt).1 5 = (Update sin cos q u dt).1 5 ∧
    (Update sin cos { q with z := translate a b q.z } u dt).1 0 = (q.z 0 + a) + dt * q.z 3 ∧
    (Update sin cos { q with z := translate a b q.z } u dt).1 1 = (q.z 1 + b) + dt * q.z 4 ∧
    (Update sin cos { q with z := translate a b q.z } u dt).2.z =
      (Update sin cos { q with z := translate a b q.z } u dt).1 ∧
    ((Update sin cos { q with z := translate a b q.z } u dt).1 =
        translate a b (Update sin cos q u dt).1 ↔
      ((q.z 0 + a) + dt * q.z 3 = (q.z 0 + dt * q.z 3) + a ∧
        (q.z 1 + b) + dt * q.z 4 = (q.z 1 + dt * q.z 4) + b)) := by
  refine ⟨rfl, rfl, rfl, rfl, rfl, rfl, rfl, ?_⟩
  constructor
  · intro h
    exact ⟨congrFun h 0, congrFun h 1⟩
  · rintro ⟨h0, h1⟩
    funext i
    fin_cases i
    · exact h0
    · exact h1
    · rfl
    · rfl
    · rfl
    · rfl

/-- Witness of C16, amended: a step of half a second from `z = (0, 1, 0, 1, 1, 0)`
shifted by `(1, 1)`, where the sums are exact in `float`. -/
theorem Update_translate_witness :
    (Update F32.sinNearZero F32.cosNearZero
      { cruiseModel (F32.ofQuot 98 10) with
        z := translate 1 1 (cruiseModel (F32.ofQuot 98 10)).z }
      (vecZero 2) (F32.ofQuot 1 2)).1 =
    translate 1 1
      (Update F32.sinNearZero F32.cosNearZero (cruiseModel (F32.ofQuot 98 10))
        (vecZero 2) (F32.ofQuot 1 2)).1 :=
  (Update_translate F32.sinNearZero F32.cosNearZero (cruiseModel (F32.ofQuot 98 10)) 1 1
    (vecZero 2) (F32.ofQuot 1 2)).2.2.2.2.2.2.2.mpr ⟨by decide, by decide⟩

end Relational

end PlanarQuadrotor
